import Mathlib

/-!
Verification of the Weather Fetcher application (`src/weather_fetcher.py`).

The program issues HTTP GET requests against a weather provider, memoizes
results through `functools.lru_cache(maxsize=5)`, renders a three-field
summary in a GUI label, and runs a periodic background loop that prints a
line per iteration.

This file gives a shallow embedding of the pure logic of that program:

* `Json` models parsed JSON payloads (numbers carry their rendered decimal
  form, mirroring how Python string-interpolates them);
* `HttpResponse` / `World` model the HTTP layer (`requests.get`): the world
  maps a request URL to the response the provider returns;
* `fetch_weather_body` is the body of `fetch_weather` (lines 66-72): build
  the URL, check `status_code != 200`, raise or return the parsed JSON;
* `Cache` + `fetch_weather` model the `@lru_cache(maxsize=5)` wrapper:
  the cache is an association list kept in most-recently-used-first order,
  a hit moves the entry to the front, a miss calls the body, and a
  successful result is inserted at the front with the least recently used
  entry dropped when the capacity of five is exceeded; exceptions are not
  memoized;
* `WeatherApp.fetch_weather` and `WeatherApp.display_weather` model the GUI
  handlers (lines 102-129);
* `periodic_fetcher_run` models iterations of the loop inside
  `periodic_fetcher` (lines 149-156).
-/

set_option autoImplicit false

namespace WeatherFetcher

/-- Parsed JSON values.  Numbers are split into integers and decimals; a
decimal carries its integer part and its fractional digit string so that the
rendered form (`21.5`) is recoverable, matching Python's interpolation of
simple float literals. -/
inductive Json where
  | str : String → Json
  | int : Int → Json
  | dec : Int → String → Json
  | arr : List Json → Json
  | obj : List (String × Json) → Json

mutual

/-- Python `repr`-style rendering of a JSON value (dicts print with single
quotes, as `print` shows them). -/
def showJson : Json → String
  | .str s => "'" ++ s ++ "'"
  | .int n => toString n
  | .dec i f => toString i ++ "." ++ f
  | .arr xs => "[" ++ showJsonArr xs ++ "]"
  | .obj kvs => "\x7b" ++ showJsonObj kvs ++ "\x7d"

/-- Comma-separated rendering of a JSON array body. -/
def showJsonArr : List Json → String
  | [] => ""
  | [x] => showJson x
  | x :: xs => showJson x ++ ", " ++ showJsonArr xs

/-- Comma-separated rendering of a JSON object body. -/
def showJsonObj : List (String × Json) → String
  | [] => ""
  | [(k, v)] => "'" ++ k ++ "': " ++ showJson v
  | (k, v) :: kvs => "'" ++ k ++ "': " ++ showJson v ++ ", " ++ showJsonObj kvs

end

/-- Python `str()` / f-string interpolation of a value: a string interpolates
as itself, everything else as its `repr`-style rendering. -/
def pyFormat : Json → String
  | .str s => s
  | v => showJson v

/-- Field lookup on a JSON object (`data[key]` when it succeeds). -/
def Json.get? : Json → String → Option Json
  | .obj kvs, k => (kvs.find? (fun p => p.1 == k)).map (fun p => p.2)
  | _, _ => none

/-- Index lookup on a JSON array (`data[i]` when it succeeds). -/
def Json.idx? : Json → Nat → Option Json
  | .arr xs, i => xs.get? i
  | _, _ => none

/-- An HTTP response as `requests` exposes it to this program:
`status_code`, the body `text`, and the parsed body `json` (the provider is
assumed to return well-formed JSON; parsing itself is out of scope). -/
structure HttpResponse where
  status : Nat
  text : String
  json : Json

/-- The HTTP world: what response a GET for a given URL returns. -/
abbrev World : Type := String → HttpResponse

/-- The hardcoded API key (line 66). -/
def api_key : String := "d6728ec66d90f2a4876e5637746e6b18"

/-- The request URL built by `fetch_weather` (line 67). -/
def mkUrl (city : String) : String :=
  "https://api.openweathermap.org/data/2.5/weather?q=" ++ city ++
    "&appid=" ++ api_key ++ "&units=metric"

/-- The error message raised on a non-200 response (line 71):
`API Error: \x7bstatus\x7d - \x7btext\x7d`. -/
def errMsg (status : Nat) (text : String) : String :=
  "API Error: " ++ toString status ++ " - " ++ text

/-- The body of `fetch_weather` (lines 66-72), without the cache: one GET,
raise `Exception` if `status_code != 200`, else return the parsed JSON. -/
def fetch_weather_body (world : World) (city : String) : Except String Json :=
  let r := world (mkUrl city)
  if r.status ≠ 200 then .error (errMsg r.status r.text)
  else .ok r.json

/-- The memo table of `lru_cache(maxsize=5)`: an association list from the
exact city string to the stored payload, kept most-recently-used first. -/
abbrev Cache : Type := List (String × Json)

/-- Lookup of a city in the cache. -/
def cacheLookup (c : Cache) (city : String) : Option Json :=
  (List.find? (fun p => p.1 == city) c).map (fun p => p.2)

/-- The keys currently cached, most recently used first. -/
def cacheKeys (c : Cache) : List String :=
  List.map Prod.fst c

/-- On a cache hit `lru_cache` moves the entry to the most-recently-used
position; on a miss the cache is unchanged. -/
def touch (c : Cache) (city : String) : Cache :=
  match List.find? (fun p => p.1 == city) c with
  | some e => e :: List.filter (fun p => p.1 != city) c
  | none => c

/-- The outcome of one call to the cached `fetch_weather`: the returned
value or raised exception, the cache afterwards, and whether an HTTP
request was performed. -/
structure FetchResult where
  result : Except String Json
  cache : Cache
  didHTTP : Bool

/-- `fetch_weather` (lines 52-72): the body wrapped in
`lru_cache(maxsize=5)`.  A hit returns the stored payload without any HTTP
request and refreshes its recency; a miss performs the request, and only a
successful result is stored (at the front, dropping the least recently
used entry beyond capacity five); an exception leaves the cache unchanged. -/
def fetch_weather (world : World) (c : Cache) (city : String) : FetchResult :=
  match cacheLookup c city with
  | some v => ⟨.ok v, touch c city, false⟩
  | none =>
    match fetch_weather_body world city with
    | .error e => ⟨.error e, c, true⟩
    | .ok v => ⟨.ok v, List.take 5 ((city, v) :: c), true⟩

/-- The cache after a sequence of `fetch_weather` calls starting from `c`. -/
def runFetchesFrom (world : World) (c : Cache) (cities : List String) : Cache :=
  cities.foldl (fun c city => (fetch_weather world c city).cache) c

/-- The cache after a sequence of `fetch_weather` calls starting empty. -/
def runFetches (world : World) (cities : List String) : Cache :=
  runFetchesFrom world [] cities

namespace WeatherApp

/-- The observable effect of one click handled by `WeatherApp.fetch_weather`
(lines 102-115): the text put into `result_label`, and the city handed to a
freshly created `WeatherFetcherThread` (`none` when no worker thread is
created, hence no HTTP request is attempted). -/
structure UiStep where
  label : String
  spawned : Option String

/-- `WeatherApp.fetch_weather` (lines 102-115): reads the input text; Python
string truthiness makes `if not city` fire exactly on the empty string, which
sets the prompt label and returns without creating a thread; any other string
sets the fetching placeholder and starts a worker for that exact string. -/
def fetch_weather (cityInput : String) : UiStep :=
  if cityInput = "" then ⟨"Please enter a city name.", none⟩
  else ⟨"Fetching weather...", some cityInput⟩

/-- `WeatherApp.display_weather` (lines 117-129): project
`data[weather][0][description]`, `data[main][temp]`, `data[main][humidity]`
and format the label; `none` models the `KeyError` paths where a projection
fails. -/
def display_weather (data : Json) : Option String := do
  let warr ← data.get? "weather"
  let w0 ← warr.idx? 0
  let weather ← w0.get? "description"
  let main ← data.get? "main"
  let temp ← main.get? "temp"
  let humidity ← main.get? "humidity"
  pure ("Weather: " ++ pyFormat weather ++ "\nTemperature: " ++ pyFormat temp ++
    "°C\nHumidity: " ++ pyFormat humidity ++ "%")

/-- `WeatherApp.display_error` (lines 131-138). -/
def display_error (error : String) : String :=
  "Error: " ++ error

end WeatherApp

/-- The console line printed by one iteration of the loop inside
`periodic_fetcher` (lines 149-156): the update line on success, the error
line on a caught exception. -/
def periodicLine (r : Except String Json) : String :=
  match r with
  | .ok data => "Periodic Weather Update: " ++ pyFormat data
  | .error e => "Periodic Fetch Error: " ++ e

/-- `n` iterations of the `periodic_fetcher` loop (lines 149-156) starting
from cache `c`: each iteration calls the cached `fetch_weather`, prints one
line whatever the outcome, and continues with the resulting cache.  Returns
the printed lines in order and the final cache. -/
def periodic_fetcher_run (world : World) (city : String) :
    Nat → Cache → List String × Cache
  | 0, c => ([], c)
  | n + 1, c =>
    let fr := fetch_weather world c city
    let rest := periodic_fetcher_run world city n fr.cache
    (periodicLine fr.result :: rest.1, rest.2)

/-- Decidable shape check for a periodic console line: it begins with the
update banner or with the error banner. -/
def periodicLineOk (line : String) : Bool :=
  List.isPrefixOf "Periodic Weather Update: ".data line.data ||
    List.isPrefixOf "Periodic Fetch Error: ".data line.data

/-! ### Helper lemmas about the cache model -/

theorem touch_length_le (c : Cache) (city : String) :
    (touch c city).length ≤ c.length := by
  unfold touch
  cases hf : List.find? (fun p => p.1 == city) c with
  | none => exact Nat.le_refl _
  | some e =>
    have he : e ∈ c := List.mem_of_find?_eq_some hf
    have hpe := List.find?_some hf
    simp only [beq_iff_eq] at hpe
    have hlt : (List.filter (fun p => p.1 != city) c).length < c.length :=
      List.length_filter_lt_length_iff_exists.mpr ⟨e, he, by simp [hpe]⟩
    simpa [List.length_cons] using hlt

theorem fetch_weather_hit_eq (world : World) (c : Cache) (city : String) (v : Json)
    (h : cacheLookup c city = some v) :
    fetch_weather world c city = ⟨.ok v, touch c city, false⟩ := by
  unfold fetch_weather
  rw [h]

theorem fetch_weather_miss_err_eq (world : World) (c : Cache) (city : String)
    (hmiss : cacheLookup c city = none)
    (herr : (world (mkUrl city)).status ≠ 200) :
    fetch_weather world c city =
      ⟨.error (errMsg (world (mkUrl city)).status (world (mkUrl city)).text), c, true⟩ := by
  unfold fetch_weather fetch_weather_body
  rw [hmiss]
  simp [herr]

theorem fetch_weather_miss_ok_eq (world : World) (c : Cache) (city : String)
    (hmiss : cacheLookup c city = none)
    (hok : (world (mkUrl city)).status = 200) :
    fetch_weather world c city =
      ⟨.ok (world (mkUrl city)).json,
        List.take 5 ((city, (world (mkUrl city)).json) :: c), true⟩ := by
  unfold fetch_weather fetch_weather_body
  rw [hmiss]
  simp [hok]

theorem fetch_weather_cache_length_le (world : World) (c : Cache) (city : String)
    (h : c.length ≤ 5) : (fetch_weather world c city).cache.length ≤ 5 := by
  unfold fetch_weather
  cases hl : cacheLookup c city with
  | some v => exact Nat.le_trans (touch_length_le c city) h
  | none =>
    cases hb : fetch_weather_body world city with
    | error e => exact h
    | ok v => exact List.length_take_le 5 ((city, v) :: c)

theorem runFetchesFrom_length_le (world : World) (cities : List String) :
    ∀ c : Cache, c.length ≤ 5 → (runFetchesFrom world c cities).length ≤ 5 := by
  induction cities with
  | nil => intro c h; exact h
  | cons city rest ih =>
    intro c h
    exact ih _ (fetch_weather_cache_length_le world c city h)

theorem fetch_weather_full_insert_eq (world : World) (c : Cache) (city : String)
    (hlen : c.length = 5) (hmiss : cacheLookup c city = none)
    (hok : (world (mkUrl city)).status = 200) :
    (fetch_weather world c city).cache =
      (city, (world (mkUrl city)).json) :: c.dropLast := by
  rw [fetch_weather_miss_ok_eq world c city hmiss hok]
  show List.take 5 ((city, (world (mkUrl city)).json) :: c) = _
  rw [List.take_succ_cons, List.dropLast_eq_take c, hlen]

/-! ### Concrete fixtures for witnesses and counterexamples -/

/-- A provider that always answers 200, with a payload identifying the URL
so that distinct cities receive distinct payloads. -/
def okWorld : World := fun url => ⟨200, "", Json.str url⟩

/-- A provider that always answers 404 with body `city not found`. -/
def notFoundWorld : World := fun _ => ⟨404, "city not found", Json.obj []⟩

/-- A provider that always answers 201: a 2xx status that is not 200. -/
def createdWorld : World := fun _ => ⟨201, "Created", Json.obj []⟩

/-- A full five-entry cache (most recently used first: `E` newest, `A`
least recently used). -/
def fullCache : Cache :=
  [("E", Json.int 5), ("D", Json.int 4), ("C", Json.int 3),
   ("B", Json.int 2), ("A", Json.int 1)]

/-- The payload shape `display_weather` projects from:
`\x7b"weather": [\x7b"description": desc\x7d], "main": \x7b"temp": temp, "humidity": humidity\x7d\x7d`. -/
def mkPayload (desc : String) (temp humidity : Json) : Json :=
  .obj [("weather", .arr [.obj [("description", .str desc)]]),
        ("main", .obj [("temp", temp), ("humidity", humidity)])]

/-- The canned success payload of the spec:
`\x7b"weather":[\x7b"description":"clear sky"\x7d],"main":\x7b"temp":21.5,"humidity":40\x7d\x7d`. -/
def cannedPayload : Json :=
  mkPayload "clear sky" (Json.dec 21 "5") (Json.int 40)

/-! ### Claim theorems -/

/-- C1: for a city string whose payload is cached, calling `fetch_weather`
again with the exact same string returns the stored payload and performs no
HTTP request; the model has no freshness check and no time-based expiry —
the only cache mutation on a hit is the recency refresh of that entry. -/
theorem cached_city_refetch_no_http (world : World) (c : Cache) (city : String)
    (v : Json) (h : cacheLookup c city = some v) :
    fetch_weather world c city = ⟨.ok v, touch c city, false⟩ :=
  fetch_weather_hit_eq world c city v h

/-- Witness for C1 at a concrete one-entry cache. -/
theorem cached_city_refetch_no_http_witness :
    cacheLookup [("London", Json.int 7)] "London" = some (Json.int 7) ∧
    fetch_weather okWorld [("London", Json.int 7)] "London" =
      ⟨.ok (Json.int 7), touch [("London", Json.int 7)] "London", false⟩ :=
  ⟨rfl, cached_city_refetch_no_http okWorld [("London", Json.int 7)] "London"
    (Json.int 7) rfl⟩

/-- C2 counterexample: status 201 is a 2xx status, yet `fetch_weather`
raises `API Error: 201 - Created` instead of succeeding, because the code
tests `status_code != 200`, not the 2xx range. -/
theorem success_on_2xx_counterexample :
    200 ≤ 201 ∧ 201 < 300 ∧
    fetch_weather_body createdWorld "Paris" =
      .error "API Error: 201 - Created" ∧
    (fetch_weather createdWorld [] "Paris").result =
      .error "API Error: 201 - Created" :=
  ⟨by decide, by decide, rfl, rfl⟩

/-- C2 amended: the HTTP path of `fetch_weather` raises a provider error
exactly when the response status is not 200 (so 2xx statuses other than 200
also raise); on status 200 it returns the parsed JSON payload. -/
theorem raise_iff_status_not_200 (world : World) (city : String) :
    fetch_weather_body world city =
      if (world (mkUrl city)).status = 200 then .ok (world (mkUrl city)).json
      else .error (errMsg (world (mkUrl city)).status (world (mkUrl city)).text) := by
  unfold fetch_weather_body
  by_cases h : (world (mkUrl city)).status = 200 <;> simp [h]

/-- C3 counterexample: after the fetch sequence A,B,C,D,E,A,F (all
successful) the cache holds F,A,E,D,C — the oldest-inserted entry `A` is
still cached because the intervening hit refreshed its recency, and `B`
was evicted instead; eviction is therefore not insertion-order. -/
theorem insertion_order_eviction_counterexample :
    cacheKeys (runFetches okWorld ["A", "B", "C", "D", "E", "A", "F"]) =
      ["F", "A", "E", "D", "C"] ∧
    "A" ∈ cacheKeys (runFetches okWorld ["A", "B", "C", "D", "E", "A", "F"]) ∧
    "B" ∉ cacheKeys (runFetches okWorld ["A", "B", "C", "D", "E", "A", "F"]) := by
  refine ⟨by decide, by decide, by decide⟩

/-- C3 amended: when the cache is full and a fetch for an uncached city
succeeds, the evicted entry is the least-recently-used one (cache hits
refresh recency), which coincides with the oldest-inserted entry only when
no intervening hit occurred; all other prior entries are retained. -/
theorem full_cache_insert_evicts_lru (world : World) (c : Cache) (city : String)
    (hlen : c.length = 5) (hmiss : cacheLookup c city = none)
    (hok : (world (mkUrl city)).status = 200) :
    (fetch_weather world c city).cache =
      (city, (world (mkUrl city)).json) :: c.dropLast :=
  fetch_weather_full_insert_eq world c city hlen hmiss hok

/-- Witness for the amended C3 at a concrete full cache. -/
theorem full_cache_insert_evicts_lru_witness :
    fullCache.length = 5 ∧ cacheLookup fullCache "F" = none ∧
    (okWorld (mkUrl "F")).status = 200 ∧
    (fetch_weather okWorld fullCache "F").cache =
      ("F", (okWorld (mkUrl "F")).json) :: fullCache.dropLast :=
  ⟨rfl, rfl, rfl, full_cache_insert_evicts_lru okWorld fullCache "F" rfl rfl rfl⟩

/-- C4: after any sequence of `fetch_weather` calls the cache holds at most
5 entries, and when a 6th distinct city is inserted into a full cache the
count stays at exactly 5 (one prior entry is evicted). -/
theorem cache_at_most_five :
    (∀ (world : World) (cities : List String),
      (runFetches world cities).length ≤ 5) ∧
    (∀ (world : World) (c : Cache) (city : String), c.length = 5 →
      cacheLookup c city = none → (world (mkUrl city)).status = 200 →
      (fetch_weather world c city).cache.length = 5) := by
  constructor
  · intro world cities
    exact runFetchesFrom_length_le world cities [] (by simp)
  · intro world c city hlen hmiss hok
    rw [fetch_weather_full_insert_eq world c city hlen hmiss hok]
    simp [List.length_dropLast, hlen]

/-- Witness for C4: the capacity bound on a concrete seven-fetch sequence
and the exact count after inserting a sixth distinct city into a full
cache. -/
theorem cache_at_most_five_witness :
    (runFetches okWorld ["A", "B", "C", "D", "E", "A", "F"]).length ≤ 5 ∧
    fullCache.length = 5 ∧ cacheLookup fullCache "F" = none ∧
    (okWorld (mkUrl "F")).status = 200 ∧
    (fetch_weather okWorld fullCache "F").cache.length = 5 :=
  ⟨cache_at_most_five.1 okWorld ["A", "B", "C", "D", "E", "A", "F"],
   rfl, rfl, rfl, cache_at_most_five.2 okWorld fullCache "F" rfl rfl rfl⟩

/-- C5: on any non-200 response `fetch_weather` raises
`API Error: \x7bstatus\x7d - \x7btext\x7d`, whose message contains the numeric status
code and the response body text as substrings. -/
theorem provider_error_carries_status_and_body (world : World) (city : String)
    (h : (world (mkUrl city)).status ≠ 200) :
    fetch_weather_body world city =
      .error (errMsg (world (mkUrl city)).status (world (mkUrl city)).text) ∧
    (toString (world (mkUrl city)).status).data <:+:
      (errMsg (world (mkUrl city)).status (world (mkUrl city)).text).data ∧
    ((world (mkUrl city)).text).data <:+:
      (errMsg (world (mkUrl city)).status (world (mkUrl city)).text).data := by
  refine ⟨?_, ?_, ?_⟩
  · unfold fetch_weather_body
    simp [h]
  · exact ⟨"API Error: ".data, (" - " ++ (world (mkUrl city)).text).data,
      by simp [errMsg, String.data_append]⟩
  · exact ⟨("API Error: " ++ toString (world (mkUrl city)).status ++ " - ").data,
      [], by simp [errMsg, String.data_append]⟩

/-- Witness for C5: the 404 / `city not found` case of the spec; the raised
message `API Error: 404 - city not found` contains `404` and
`city not found`. -/
theorem provider_error_carries_status_and_body_witness :
    (notFoundWorld (mkUrl "London")).status ≠ 200 ∧
    (fetch_weather_body notFoundWorld "London" =
      .error (errMsg 404 "city not found") ∧
    "404".data <:+: (errMsg 404 "city not found").data ∧
    "city not found".data <:+: (errMsg 404 "city not found").data) :=
  ⟨by decide,
   provider_error_carries_status_and_body notFoundWorld "London" (by decide)⟩

/-- C6: on an empty city input the click handler sets the label to exactly
`Please enter a city name.` and returns without creating a worker thread
(`spawned = none`), hence without attempting any HTTP request; the handler
returns normally, so the empty-input case is never surfaced as an
exception. -/
theorem empty_city_no_fetch :
    WeatherApp.fetch_weather "" = ⟨"Please enter a city name.", none⟩ := rfl

/-- C7: `display_weather` renders the three projected fields as
`Weather: \x7bdescription\x7d\nTemperature: \x7btemp\x7d°C\nHumidity: \x7bhumidity\x7d%`, and on
the canned payload of the spec it produces exactly
`Weather: clear sky\nTemperature: 21.5°C\nHumidity: 40%`. -/
theorem display_weather_renders_three_fields :
    (∀ (desc : String) (temp humidity : Json),
      WeatherApp.display_weather (mkPayload desc temp humidity) =
        some ("Weather: " ++ desc ++ "\nTemperature: " ++ pyFormat temp ++
          "°C\nHumidity: " ++ pyFormat humidity ++ "%")) ∧
    WeatherApp.display_weather cannedPayload =
      some "Weather: clear sky\nTemperature: 21.5°C\nHumidity: 40%" :=
  ⟨fun _ _ _ => rfl, rfl⟩

/-- Each console line the periodic loop prints is an update line or an
error line. -/
theorem periodicLineOk_periodicLine (r : Except String Json) :
    periodicLineOk (periodicLine r) = true := by
  cases r <;>
    simp [periodicLine, periodicLineOk, String.data_append,
      List.isPrefixOf_iff_prefix]

/-- C8: every iteration of the periodic loop prints exactly one console
line — the update line on success or the error line on a caught failure —
and the loop runs all `n` scheduled iterations regardless of outcomes: a
fetch failure never escapes the `try`/`except` and never stops the loop. -/
theorem periodic_loop_prints_and_continues (world : World) (city : String) :
    ∀ (n : Nat) (c : Cache),
      (periodic_fetcher_run world city n c).1.length = n ∧
      (periodic_fetcher_run world city n c).1.all periodicLineOk = true := by
  intro n
  induction n with
  | zero => intro c; exact ⟨rfl, rfl⟩
  | succ n ih =>
    intro c
    have h := ih (fetch_weather world c city).cache
    unfold periodic_fetcher_run
    refine ⟨by simp [h.1], ?_⟩
    simp [List.all_cons, periodicLineOk_periodicLine, h.2]

/-- C9: a raising `fetch_weather` call is not memoized: on a cache miss
whose HTTP response is non-200, the call raises, the cache is left exactly
as it was, and a subsequent call with the same city again performs an HTTP
request. -/
theorem failed_fetch_not_memoized (world : World) (c : Cache) (city : String)
    (hmiss : cacheLookup c city = none)
    (herr : (world (mkUrl city)).status ≠ 200) :
    (fetch_weather world c city).cache = c ∧
    (fetch_weather world c city).didHTTP = true ∧
    (fetch_weather world ((fetch_weather world c city).cache) city).didHTTP = true := by
  have h1 := fetch_weather_miss_err_eq world c city hmiss herr
  refine ⟨by rw [h1], by rw [h1], ?_⟩
  rw [h1]
  show (fetch_weather world c city).didHTTP = true
  rw [h1]

/-- Witness for C9 with the 404 provider and an empty cache. -/
theorem failed_fetch_not_memoized_witness :
    cacheLookup [] "London" = none ∧
    (notFoundWorld (mkUrl "London")).status ≠ 200 ∧
    ((fetch_weather notFoundWorld [] "London").cache = [] ∧
     (fetch_weather notFoundWorld [] "London").didHTTP = true ∧
     (fetch_weather notFoundWorld
       ((fetch_weather notFoundWorld [] "London").cache) "London").didHTTP = true) :=
  ⟨rfl, by decide,
   failed_fetch_not_memoized notFoundWorld [] "London" rfl (by decide)⟩

/-- The whitespace characters of an ASCII city string, as Python's
`str.isspace` would class them; only used to state C10's hypothesis. -/
def isPySpace (ch : Char) : Bool :=
  ch == ' ' || ch == '\t' || ch == '\n' || ch == '\r' || ch == '\x0b' || ch == '\x0c'

/-- C10: the click handler validates only string truthiness (`if not city`),
so a non-empty city consisting solely of whitespace passes validation and a
worker is started for that exact, unmodified string (which then issues the
HTTP request). -/
theorem whitespace_city_passes_validation (s : String) (hne : s ≠ "")
    (_hws : s.data.all isPySpace = true) :
    WeatherApp.fetch_weather s = ⟨"Fetching weather...", some s⟩ := by
  simp [WeatherApp.fetch_weather, hne]

/-- Witness for C10 at the three-space string. -/
theorem whitespace_city_passes_validation_witness :
    "   " ≠ "" ∧ "   ".data.all isPySpace = true ∧
    WeatherApp.fetch_weather "   " = ⟨"Fetching weather...", some "   "⟩ :=
  ⟨by decide, by decide,
   whitespace_city_passes_validation "   " (by decide) (by decide)⟩

end WeatherFetcher
